import Mathlib

/-!
Verification development for `pdfify.py`, a batch file-to-PDF converter.

The script is effectful Python (filesystem, subprocess, process-wide working
directory).  We embed it shallowly: every external interaction (what
`subprocess.run` does, whether a file exists, whether an I/O call raises) is
an explicit parameter of the model, and each converter is translated
statement-by-statement from the source, including its `try`/`except`
structure, into a function from that environment to an outcome (a Python
return value or a propagating exception, plus the observable side state:
working directory, log lines, files written).

Path manipulation (`os.path.basename`, `os.path.splitext`, `os.path.join`,
`os.path.dirname`) is embedded from CPython's `posixpath` implementation.
`str.lower` is modelled on ASCII (the only code points the extension tables
contain).
-/

namespace Pdfify

/-- Index of the last occurrence of `c` in `s`, if any
(CPython `str.rfind` restricted to single characters). -/
def rfindIdx (c : Char) (s : List Char) : Option Nat :=
  match s.reverse.findIdx? (fun x => x = c) with
  | none => none
  | some i => some (s.length - 1 - i)

/-- CPython `posixpath.splitext` on a character list: split off the extension
at the last dot, unless that dot lies in the leading run of dots of the base
name (so `.bashrc` has no extension). -/
def splitextL (p : List Char) : List Char × List Char :=
  let sepIndex : Int := match rfindIdx '/' p with | none => -1 | some i => (i : Int)
  let dotIndex : Int := match rfindIdx '.' p with | none => -1 | some i => (i : Int)
  if sepIndex < dotIndex then
    let start := (sepIndex + 1).toNat
    let stop := dotIndex.toNat
    if ((p.drop start).take (stop - start)).any (fun x => x ≠ '.') then
      (p.take stop, p.drop stop)
    else (p, [])
  else (p, [])

/-- String-level `os.path.splitext`. -/
def splitext (p : String) : String × String :=
  let r := splitextL p.data
  (⟨r.1⟩, ⟨r.2⟩)

/-- CPython `posixpath.basename`: everything after the last slash. -/
def basename (p : String) : String :=
  match rfindIdx '/' p.data with
  | none => p
  | some i => ⟨p.data.drop (i + 1)⟩

/-- CPython `posixpath.dirname`: everything up to the last slash, with
trailing slashes stripped unless the head is all slashes. -/
def dirname (p : String) : String :=
  let i := match rfindIdx '/' p.data with | none => 0 | some i => i + 1
  let head := p.data.take i
  if head ≠ [] ∧ head.any (fun x => x ≠ '/') then
    ⟨(head.reverse.dropWhile (fun x => x = '/')).reverse⟩
  else ⟨head⟩

/-- CPython `posixpath.join` for exactly two components
(`b.startswith('/')` and `a.endswith('/')` are single-character checks,
modelled on the character lists directly). -/
def joinPath (a b : String) : String :=
  if b.data.head? = some '/' then b
  else if a = "" ∨ a.data.getLast? = some '/' then a ++ b
  else a ++ "/" ++ b

/-- Model of `str.lower` on the ASCII range (extension tables are ASCII). -/
def pyLower (s : String) : String :=
  ⟨s.data.map Char.toLower⟩

/-- Characters the CPython `str.strip` treats as whitespace, restricted to
code points below 128 (the only ones that survive the ASCII filter that
precedes every call to strip in this program). -/
def isPySpace (c : Char) : Bool :=
  c = ' ' ∨ c = '\t' ∨ c = '\n' ∨ c = '\r' ∨ c.toNat = 11 ∨ c.toNat = 12 ∨
    (28 ≤ c.toNat ∧ c.toNat ≤ 31)

/-- Python `str.strip()`: drop leading and trailing whitespace. -/
def pyStrip (cs : List Char) : List Char :=
  ((cs.dropWhile isPySpace).reverse.dropWhile isPySpace).reverse

/-- Splitting a decoded text into lines the way `for line in file` iterates a
Python text file: each line keeps its trailing newline; a final segment
without a newline is its own line; empty text yields no lines. -/
def pyLinesAux : List Char → List Char → List (List Char)
  | [], acc => if acc = [] then [] else [acc.reverse]
  | c :: rest, acc =>
      if c = '\n' then (acc.reverse ++ ['\n']) :: pyLinesAux rest []
      else pyLinesAux rest (c :: acc)

/-- Lines of a decoded text, Python file-iteration style. -/
def pyLines (cs : List Char) : List (List Char) :=
  pyLinesAux cs []

/-- Python exceptions as the model sees them: `subprocess.CalledProcessError`
(carrying captured stderr), any other `Exception` subclass (carrying its
message), and exceptions outside the `Exception` hierarchy
(`KeyboardInterrupt`, `SystemExit`), which `except Exception` does not catch. -/
inductive PyExc where
  | calledProcessError (stderr : String)
  | otherException (msg : String)
  | nonException (msg : String)
  deriving DecidableEq, Repr

/-- Message text used when an exception is interpolated into a log line. -/
def excMessage : PyExc → String
  | .calledProcessError s => "CalledProcessError stderr " ++ s
  | .otherException m => m
  | .nonException m => m

/-- A converter body either returns a Python value (Sum.inr) or raises
(Sum.inl), together with the side state it has accumulated. -/
abbrev PyRun (σ : Type) := (PyExc ⊕ Bool) × σ

/-- Semantics of a bare `except Exception` clause wrapped around a body:
values pass through, `Exception`-class raises are turned into the handler
result (the source handlers log a message and return `False`), and
non-`Exception` raises propagate. -/
def catchException {σ : Type} (onCatch : String → σ → σ) : PyRun σ → PyRun σ
  | (Sum.inl (PyExc.nonException m), s) => (Sum.inl (PyExc.nonException m), s)
  | (Sum.inl e, s) => (Sum.inr false, onCatch (excMessage e) s)
  | (Sum.inr b, s) => (Sum.inr b, s)

/-! ## Capability probe (`check_dependencies`, pdfify.py lines 13-21) -/

/-- Possible host states for the `subprocess.run(['which', 'abiword'], check=True, ...)`
call: the lookup finds the binary (exit 0), the lookup runs but does not find
it (non-zero exit, a `CalledProcessError`), or the lookup mechanism itself is
unavailable (`which` missing: `FileNotFoundError`, an `Exception` that is not
a `CalledProcessError`). -/
inductive WhichOutcome where
  | found
  | notFound
  | lookupUnavailable (msg : String)
  deriving DecidableEq, Repr

/-- Body of `check_dependencies` before its `except` clause: runs the lookup
and, only when it returned, prints the installed message. -/
def check_dependencies_body : WhichOutcome → (PyExc ⊕ Unit) × List String
  | .found => (Sum.inr (), ["AbiWord is installed."])
  | .notFound => (Sum.inl (.calledProcessError ""), [])
  | .lookupUnavailable m => (Sum.inl (.otherException m), [])

/-- Model of `check_dependencies` (pdfify.py lines 13-21): the single
`except subprocess.CalledProcessError` clause prints the two warning lines;
every other exception propagates.  The function returns `None` (here `Unit`)
in the non-raising cases. -/
def check_dependencies (w : WhichOutcome) : (PyExc ⊕ Unit) × List String :=
  match check_dependencies_body w with
  | (Sum.inl (.calledProcessError _), logs) =>
      (Sum.inr (), logs ++
        ["WARNING: AbiWord is not installed. DOCX conversion will not work.",
         "Install with: sudo apt-get install abiword"])
  | r => r

/-! ## Text converter (`convert_txt_to_pdf`, pdfify.py lines 23-41) -/

/-- Failure points of the text converter's body: the `open`/read of the input
(an `IOError`; decode errors cannot occur because `errors='replace'` is
passed), and the `pdf.output` write of the result. -/
structure TxtEnv where
  openError : Option String
  outputError : Option String
  deriving DecidableEq, Repr

/-- Observable state of a text conversion: the cell texts of the PDF written
to the output path (when `pdf.output` ran), and the log lines printed. -/
structure TxtState where
  written : Option (List (List Char))
  logs : List String
  deriving DecidableEq, Repr

/-- The loop of `convert_txt_to_pdf`: for each line, filter out code points
at or above 128 (`ord(char) < 128`), then `pdf.cell(..., txt=clean_line.strip(), ...)`
appends the stripped text as one cell. -/
def txt_loop : List (List Char) → List (List Char) → List (List Char)
  | [], cells => cells
  | line :: rest, cells =>
      let clean_line := line.filter (fun c => c.toNat < 128)
      txt_loop rest (cells ++ [pyStrip clean_line])

/-- Body of `convert_txt_to_pdf` before its `except` clause, over the decoded
text of the input file. -/
def txt_body (text : List Char) (env : TxtEnv) : PyRun TxtState :=
  match env.openError with
  | some m => (Sum.inl (.otherException m), { written := none, logs := [] })
  | none =>
    let cells := txt_loop (pyLines text) []
    match env.outputError with
    | some m => (Sum.inl (.otherException m), { written := none, logs := [] })
    | none => (Sum.inr true, { written := some cells, logs := [] })

/-- Model of `convert_txt_to_pdf` (pdfify.py lines 23-41): the body wrapped in
`except Exception as e: print(...); return False`. -/
def convert_txt_to_pdf (text : List Char) (env : TxtEnv) : PyRun TxtState :=
  catchException
    (fun m s => { s with logs := s.logs ++ ["Error converting text file: " ++ m] })
    (txt_body text env)

/-- Modelled from the spec's words (section 8, text property): the input with
every non-ASCII code point removed, line by line, and nothing else changed.
Used only to compare against the source-derived `convert_txt_to_pdf`. -/
def spec_clean_lines (text : List Char) : List (List Char) :=
  (pyLines text).map (fun l => l.filter (fun c => c.toNat < 128))

/-! ## Image converter (`convert_image_to_pdf`, pdfify.py lines 43-69) -/

/-- What `Image.open` reveals about a readable image: pixel size and PIL mode
string (for example RGB, RGBA, L, P). -/
structure ImageData where
  width : Nat
  height : Nat
  mode : String
  deriving DecidableEq, Repr

/-- Failure points of the image converter's body: `Image.open` (unreadable
image), `image.save` of the temporary JPEG, `pdf.output`, and `os.remove` of
the temporary file.  All of these raise `Exception`-class errors. -/
structure ImgEnv where
  openResult : ImageData ⊕ String
  saveError : Option String
  outputError : Option String
  removeError : Option String
  deriving DecidableEq, Repr

/-- Observable state of an image conversion: the page format in points of the
PDF written to the output path (when `pdf.output` ran), whether a mode
conversion to RGB was performed, whether the temporary JPEG is left on disk,
and the log lines. -/
structure ImgState where
  pdfPage : Option (Nat × Nat)
  convertedToRGB : Bool
  tempFileLeft : Bool
  logs : List String
  deriving DecidableEq, Repr

/-- Body of `convert_image_to_pdf` before its `except` clause: open the image,
convert to RGB when the mode differs, save a temporary JPEG, build
`FPDF(unit="pt", format=[width, height])`, place the image at (0,0) with the
image's own width and height, write the PDF, delete the temporary file. -/
def image_body (env : ImgEnv) : PyRun ImgState :=
  let s0 : ImgState :=
    { pdfPage := none, convertedToRGB := false, tempFileLeft := false, logs := [] }
  match env.openResult with
  | Sum.inr m => (Sum.inl (.otherException m), s0)
  | Sum.inl img =>
    let s1 := { s0 with convertedToRGB := decide (img.mode ≠ "RGB") }
    match env.saveError with
    | some m => (Sum.inl (.otherException m), s1)
    | none =>
      let s2 := { s1 with tempFileLeft := true }
      match env.outputError with
      | some m => (Sum.inl (.otherException m), s2)
      | none =>
        let s3 := { s2 with pdfPage := some (img.width, img.height) }
        match env.removeError with
        | some m => (Sum.inl (.otherException m), s3)
        | none => (Sum.inr true, { s3 with tempFileLeft := false })

/-- Model of `convert_image_to_pdf` (pdfify.py lines 43-69): the body wrapped
in `except Exception as e: print(...); return False`. -/
def convert_image_to_pdf (env : ImgEnv) : PyRun ImgState :=
  catchException
    (fun m s => { s with logs := s.logs ++ ["Error converting image: " ++ m] })
    (image_body env)

/-! ## Document converter (`convert_docx_to_pdf`, pdfify.py lines 71-111) -/

/-- Outcome of the `subprocess.run(['abiword', '--to=pdf', input_file], check=True, ...)`
call: exit 0, non-zero exit (raises `CalledProcessError` carrying captured
stderr), or a spawn failure such as the binary being missing (raises
`FileNotFoundError`, an `Exception`). -/
inductive ProcOutcome where
  | ok
  | nonzero (stderr : String)
  | spawnFailure (msg : String)
  deriving DecidableEq, Repr

/-- Failure points and externally determined facts for one call of the
document converter: whether `os.chdir(output_dir)` raises, what the external
process does, whether the expected produced file
`<output_dir>/<input-stem>.pdf` exists afterwards, and whether `os.rename`
raises if attempted. -/
structure DocxEnv where
  chdirError : Option String
  proc : ProcOutcome
  expectedExists : Bool
  renameError : Option String
  deriving DecidableEq, Repr

/-- Observable state of a document conversion: the process-wide working
directory, whether the rename into place was performed, and the log lines. -/
structure DocxState where
  cwd : String
  renamed : Bool
  logs : List String
  deriving DecidableEq, Repr

/-- Body of `convert_docx_to_pdf` before its `except` clauses, translated
statement by statement (pdfify.py lines 73-104): compute the output
directory, `os.chdir` into it, run AbiWord, `os.chdir` back, and rename the
expected produced file onto the requested output path when it exists and
differs.  Note the chdir back happens only after a successful run: a raise
from `subprocess.run` leaves the working directory changed. -/
def docx_body (input_file output_file : String) (env : DocxEnv) (cwd0 : String) :
    PyRun DocxState :=
  let output_dir0 := dirname output_file
  let output_dir := if output_dir0 = "" then "." else output_dir0
  let s0 : DocxState := { cwd := cwd0, renamed := false, logs := [] }
  match env.chdirError with
  | some m => (Sum.inl (.otherException m), s0)
  | none =>
    let s1 := { s0 with cwd := output_dir }
    match env.proc with
    | .nonzero stderr => (Sum.inl (.calledProcessError stderr), s1)
    | .spawnFailure m => (Sum.inl (.otherException m), s1)
    | .ok =>
      let s2 := { s1 with cwd := cwd0 }
      let base_name := basename input_file
      let name_without_ext := (splitext base_name).1
      let expected_pdf := joinPath output_dir (name_without_ext ++ ".pdf")
      if env.expectedExists ∧ expected_pdf ≠ output_file then
        match env.renameError with
        | some m => (Sum.inl (.otherException m), s2)
        | none => (Sum.inr true, { s2 with renamed := true })
      else (Sum.inr true, s2)

/-- Model of `convert_docx_to_pdf` (pdfify.py lines 71-111): the body wrapped
in `except subprocess.CalledProcessError` (logs the error and the decoded
stderr, returns False) followed by `except Exception` (logs and returns
False); non-`Exception` raises would propagate. -/
def convert_docx_to_pdf (input_file output_file : String) (env : DocxEnv)
    (cwd0 : String) : PyRun DocxState :=
  match docx_body input_file output_file env cwd0 with
  | (Sum.inl (.calledProcessError stderr), s) =>
      (Sum.inr false,
       { s with logs := s.logs ++ ["Error running AbiWord", "STDERR: " ++ stderr] })
  | (Sum.inl (.otherException m), s) =>
      (Sum.inr false, { s with logs := s.logs ++ ["Error converting DOCX: " ++ m] })
  | r => r

/-! ## Dispatcher (`convert_to_pdf`, pdfify.py lines 113-139) -/

/-- The output path the dispatcher derives (pdfify.py lines 116-121):
`os.path.join(output_dir, name_without_ext + '.pdf')` where
`name_without_ext` is the stem of the basename of the input. -/
def derived_output_path (output_dir input_file : String) : String :=
  joinPath output_dir ((splitext (basename input_file)).1 ++ ".pdf")

/-- Model of `convert_to_pdf` (pdfify.py lines 113-139).  The three converter
calls are abstracted by boolean oracles giving the `True`/`False` each
converter returns for a given input and output path (the converters
themselves never raise for the modelled failure modes, so a boolean is their
whole interface here).  Returns the output path on success, `None` on
converter failure or unsupported extension. -/
def convert_to_pdf (txtOk imgOk docOk : String → String → Bool)
    (input_file output_dir : String) : Option String :=
  let file_name := basename input_file
  let name_without_ext := (splitext file_name).1
  let extension := pyLower (splitext file_name).2
  let output_file := joinPath output_dir (name_without_ext ++ ".pdf")
  if extension ∈ [".txt", ".md", ".csv"] then
    if txtOk input_file output_file then some output_file else none
  else if extension ∈ [".jpg", ".jpeg", ".png", ".bmp", ".gif"] then
    if imgOk input_file output_file then some output_file else none
  else if extension ∈ [".docx", ".doc"] then
    if docOk input_file output_file then some output_file else none
  else none

/-! ## Batch driver (`main`, pdfify.py lines 141-192) -/

/-- The value of `os.path.basename(__file__)` for this script. -/
def script_basename : String := "pdfify.py"

/-- The supported extension table of `main` (pdfify.py lines 156-160). -/
def supported_extensions : List String :=
  [".txt", ".md", ".csv",
   ".jpg", ".jpeg", ".png", ".bmp", ".gif",
   ".docx", ".doc"]

/-- External facts one run of the batch loop consults: which paths are
directories, the success oracles of the three converters, and which paths
exist on disk at the moment of the post-conversion check. -/
structure BatchEnv where
  isDirF : String → Bool
  txtOk : String → String → Bool
  imgOk : String → String → Bool
  docOk : String → String → Bool
  existsF : String → Bool

/-- The per-file loop of `main` (pdfify.py lines 167-183) over a directory
listing: skip directories and the script itself, skip unsupported
extensions, otherwise dispatch and append the file name to the converted or
failed list according to `if output_file and os.path.exists(output_file)`. -/
def mainLoop (env : BatchEnv) (current_dir output_dir : String) :
    List String → List String × List String
  | [] => ([], [])
  | file_name :: rest =>
    let r := mainLoop env current_dir output_dir rest
    let file_path := joinPath current_dir file_name
    if env.isDirF file_path ∨ file_name = script_basename then r
    else
      let extension := pyLower (splitext file_name).2
      if extension ∈ supported_extensions then
        match convert_to_pdf env.txtOk env.imgOk env.docOk file_path output_dir with
        | some output_file =>
          if output_file ≠ "" ∧ env.existsF output_file = true then
            (file_name :: r.1, r.2)
          else (r.1, file_name :: r.2)
        | none => (r.1, file_name :: r.2)
      else r

/-- A directory entry is eligible (will be dispatched) when it is not a
directory, not the script itself, and its lowered extension is supported. -/
def eligible (env : BatchEnv) (current_dir : String) (file_name : String) : Bool :=
  !env.isDirF (joinPath current_dir file_name) &&
    !(file_name = script_basename : Bool) &&
    decide (pyLower (splitext file_name).2 ∈ supported_extensions)

/-- A batch environment in which nothing is a directory, every converter
succeeds, and every path exists on disk. -/
def allOkEnv : BatchEnv :=
  { isDirF := fun _ => false, txtOk := fun _ _ => true, imgOk := fun _ _ => true,
    docOk := fun _ _ => true, existsF := fun _ => true }

/-! ## Theorems -/

/-- Unfolding the text converter's cell loop into a map over the lines. -/
theorem txt_loop_eq (lines : List (List Char)) (acc : List (List Char)) :
    txt_loop lines acc =
      acc ++ lines.map (fun l => pyStrip (l.filter (fun c => c.toNat < 128))) := by
  induction lines generalizing acc with
  | nil => simp [txt_loop]
  | cons line rest ih => simp [txt_loop, ih]

/-- C3 counterexample: on the one-line input consisting of a space followed
by the letter a, the converter writes the cell text a (the leading space is
removed by the `strip()` call at pdfify.py line 35), whereas the claim's
transformation (remove exactly the code points at or above 128 and nothing
else) keeps the space.  So characters other than non-ASCII ones are removed. -/
theorem C3_counterexample :
    (convert_txt_to_pdf (" a").data
        { openError := none, outputError := none }).2.written = some [['a']] ∧
      spec_clean_lines (" a").data = [[' ', 'a']] ∧
      ([['a']] : List (List Char)) ≠ [[' ', 'a']] := by
  refine ⟨by decide, by decide, by decide⟩

/-- C3 amended: when reading and writing succeed, the text written into the
PDF equals the input with, per line, the code points at or above 128 removed
and then leading and trailing Python whitespace stripped. -/
theorem C3_amended (text : List Char) (env : TxtEnv)
    (hopen : env.openError = none) (hout : env.outputError = none) :
    (convert_txt_to_pdf text env).1 = Sum.inr true ∧
      (convert_txt_to_pdf text env).2.written =
        some ((pyLines text).map (fun l => pyStrip (l.filter (fun c => c.toNat < 128)))) := by
  simp [convert_txt_to_pdf, txt_body, hopen, hout, catchException, txt_loop_eq]

/-- C3 amended witness at the concrete input used in the counterexample. -/
theorem C3_amended_witness :
    (convert_txt_to_pdf (" a").data { openError := none, outputError := none }).2.written =
      some ((pyLines (" a").data).map (fun l => pyStrip (l.filter (fun c => c.toNat < 128)))) :=
  (C3_amended (" a").data { openError := none, outputError := none } rfl rfl).2

/-- C4 counterexample: when the lookup mechanism itself is unavailable (the
`which` binary missing, so `subprocess.run` raises `FileNotFoundError`), the
probe raises rather than treating the dependency as absent: only
`subprocess.CalledProcessError` is caught at pdfify.py line 19. -/
theorem C4_counterexample :
    (check_dependencies (.lookupUnavailable "no such file: which")).1 =
      Sum.inl (PyExc.otherException "no such file: which") := rfl

/-- C4 amended: when the lookup runs and exits non-zero the probe treats the
binary as absent, prints the warning and the install recommendation, and
does not raise; when the lookup finds the binary it prints the installed
message; but when the lookup mechanism itself is unavailable the exception
propagates and aborts the run.  The probe returns no boolean presence flag. -/
theorem C4_amended :
    check_dependencies .found = (Sum.inr (), ["AbiWord is installed."]) ∧
      check_dependencies .notFound =
        (Sum.inr (),
         ["WARNING: AbiWord is not installed. DOCX conversion will not work.",
          "Install with: sudo apt-get install abiword"]) ∧
      ∀ m, check_dependencies (.lookupUnavailable m) =
        (Sum.inl (.otherException m), []) := by
  refine ⟨rfl, rfl, fun m => rfl⟩

/-- C1 counterexample: the external process exits successfully but the
expected produced file `<output_dir>/<input-stem>.pdf` does not exist
afterwards, and the converter still returns `True` — the existence check at
pdfify.py line 101 only guards the rename, it is not a success condition.
The claim says this case returns false. -/
theorem C1_counterexample :
    (convert_docx_to_pdf "/docs/a.docx" "/out/a.pdf"
        { chdirError := none, proc := .ok, expectedExists := false,
          renameError := none } "/home").1 = Sum.inr true := by
  decide

/-- C1 amended: a non-zero exit of the external process yields false and the
captured stderr is logged; but a successful exit yields true regardless of
whether the expected produced file exists (a missing output file is only
detected later by the batch driver's existence check), provided the chdir
and rename steps do not raise. -/
theorem C1_amended (input_file output_file : String) (env : DocxEnv) (cwd0 : String) :
    (∀ s, env.chdirError = none → env.proc = .nonzero s →
        (convert_docx_to_pdf input_file output_file env cwd0).1 = Sum.inr false ∧
          ("STDERR: " ++ s) ∈
            (convert_docx_to_pdf input_file output_file env cwd0).2.logs) ∧
      (env.chdirError = none → env.proc = .ok → env.renameError = none →
        (convert_docx_to_pdf input_file output_file env cwd0).1 = Sum.inr true) := by
  constructor
  · intro s hchdir hs
    simp [convert_docx_to_pdf, docx_body, hchdir, hs]
  · intro hchdir hproc hren
    simp only [convert_docx_to_pdf, docx_body, hchdir, hproc, hren]
    by_cases hex : env.expectedExists = true
    · by_cases heq :
        joinPath (if dirname output_file = "" then "." else dirname output_file)
          ((splitext (basename input_file)).1 ++ ".pdf") = output_file
      · simp [hex, heq]
      · simp [hex, heq]
    · simp [hex]

/-- C1 amended witness: the non-zero-exit half at a concrete input. -/
theorem C1_amended_witness :
    (convert_docx_to_pdf "/docs/a.docx" "/out/a.pdf"
        { chdirError := none, proc := .nonzero "abiword: cannot load", expectedExists := false,
          renameError := none } "/home").1 = Sum.inr false :=
  ((C1_amended "/docs/a.docx" "/out/a.pdf"
      { chdirError := none, proc := .nonzero "abiword: cannot load", expectedExists := false,
        renameError := none } "/home").1 "abiword: cannot load" rfl rfl).1

/-- C2 counterexample: when the external process exits non-zero, the
`os.chdir(current_dir)` at pdfify.py line 93 is skipped (there is no
`finally`), so at the end of the call the process-wide working directory is
the output directory, not the directory the call started in. -/
theorem C2_counterexample :
    (convert_docx_to_pdf "/docs/a.docx" "/out/a.pdf"
        { chdirError := none, proc := .nonzero "boom", expectedExists := false,
          renameError := none } "/home").2.cwd = "/out" ∧ "/out" ≠ "/home" := by
  refine ⟨by decide, by decide⟩

/-- C2 amended: the working directory is restored exactly when the external
process exits successfully (then even a failing rename leaves it restored)
or when the initial chdir itself failed and the directory never changed;
when the process raises (non-zero exit or spawn failure) the restore is
skipped and the working directory remains the output directory. -/
theorem C2_amended (input_file output_file : String) (env : DocxEnv) (cwd0 : String) :
    (env.chdirError ≠ none →
        (convert_docx_to_pdf input_file output_file env cwd0).2.cwd = cwd0) ∧
      (env.proc = .ok →
        (convert_docx_to_pdf input_file output_file env cwd0).2.cwd = cwd0) ∧
      (env.chdirError = none → env.proc ≠ .ok →
        (convert_docx_to_pdf input_file output_file env cwd0).2.cwd =
          (if dirname output_file = "" then "." else dirname output_file)) := by
  refine ⟨?_, ?_, ?_⟩
  · intro h
    rcases henv : env.chdirError with _ | m
    · exact absurd henv h
    · simp [convert_docx_to_pdf, docx_body, henv]
  · intro hproc
    rcases henv : env.chdirError with _ | m
    · simp only [convert_docx_to_pdf, docx_body, henv, hproc]
      by_cases hex : env.expectedExists = true
      · by_cases heq :
          joinPath (if dirname output_file = "" then "." else dirname output_file)
            ((splitext (basename input_file)).1 ++ ".pdf") = output_file
        · simp [hex, heq]
        · rcases hren : env.renameError with _ | m
          · simp [hex, heq, hren]
          · simp [hex, heq, hren]
      · simp [hex]
    · simp [convert_docx_to_pdf, docx_body, henv]
  · intro hchdir hproc
    rcases hp : env.proc with _ | s | m
    · exact absurd hp hproc
    · simp [convert_docx_to_pdf, docx_body, hchdir, hp]
    · simp [convert_docx_to_pdf, docx_body, hchdir, hp]

/-- C2 amended witness: the successful-process half at a concrete input. -/
theorem C2_amended_witness :
    (convert_docx_to_pdf "/docs/a.docx" "/out/a.pdf"
        { chdirError := none, proc := .ok, expectedExists := true,
          renameError := none } "/home").2.cwd = "/home" :=
  (C2_amended "/docs/a.docx" "/out/a.pdf"
      { chdirError := none, proc := .ok, expectedExists := true,
        renameError := none } "/home").2.1 rfl

/-- C5: every discovered file with a supported extension that is neither a
directory nor the script itself lands in exactly one of the two result
lists (occurrence counts add up name by name), files that are directories,
the script, or unsupported produce no entry, and the printed total
(converted plus failed) equals the number of eligible entries. -/
theorem C5_partition (env : BatchEnv) (current_dir output_dir : String)
    (names : List String) :
    (∀ s : String,
        (mainLoop env current_dir output_dir names).1.count s +
          (mainLoop env current_dir output_dir names).2.count s =
          (names.filter (eligible env current_dir)).count s) ∧
      (mainLoop env current_dir output_dir names).1.length +
          (mainLoop env current_dir output_dir names).2.length =
        (names.filter (eligible env current_dir)).length := by
  induction names with
  | nil => exact ⟨fun s => rfl, rfl⟩
  | cons name rest ih =>
    rcases ih with ⟨ihc, ihl⟩
    by_cases hskip : env.isDirF (joinPath current_dir name) = true ∨ name = script_basename
    · have helig : eligible env current_dir name = false := by
        rcases hskip with h | h <;> simp [eligible, h]
      refine ⟨fun s => ?_, ?_⟩
      · simpa [mainLoop, hskip, helig] using ihc s
      · simpa [mainLoop, hskip, helig] using ihl
    · by_cases hsup : pyLower (splitext name).2 ∈ supported_extensions
      · have helig : eligible env current_dir name = true := by
          push_neg at hskip
          simp [eligible, hskip.1, hskip.2, hsup]
        rcases hres : convert_to_pdf env.txtOk env.imgOk env.docOk
            (joinPath current_dir name) output_dir with _ | output_file
        · refine ⟨fun s => ?_, ?_⟩
          · have hc := ihc s
            simp [mainLoop, hskip, hsup, hres, helig, List.count_cons]
            omega
          · simp [mainLoop, hskip, hsup, hres, helig]
            omega
        · by_cases hok : output_file ≠ "" ∧ env.existsF output_file = true
          · refine ⟨fun s => ?_, ?_⟩
            · have hc := ihc s
              simp [mainLoop, hskip, hsup, hres, hok, helig, List.count_cons]
              omega
            · simp [mainLoop, hskip, hsup, hres, hok, helig]
              omega
          · refine ⟨fun s => ?_, ?_⟩
            · have hc := ihc s
              simp [mainLoop, hskip, hsup, hres, hok, helig, List.count_cons]
              omega
            · simp [mainLoop, hskip, hsup, hres, hok, helig]
              omega
      · have helig : eligible env current_dir name = false := by
          simp [eligible, hsup]
        refine ⟨fun s => ?_, ?_⟩
        · simpa [mainLoop, hskip, hsup, helig] using ihc s
        · simpa [mainLoop, hskip, hsup, helig] using ihl

/-- C6: the dispatcher derives the output path `<output_dir>/<stem>.pdf`,
classifies the lowered extension into the text, image, or document table (or
unsupported), returns the derived path exactly when the matched converter
reported success, returns none on an unsupported extension, and never
returns any path other than the derived one. -/
theorem C6_dispatcher (txtOk imgOk docOk : String → String → Bool)
    (input_file output_dir : String) :
    (pyLower (splitext (basename input_file)).2 ∈ [".txt", ".md", ".csv"] →
        convert_to_pdf txtOk imgOk docOk input_file output_dir =
          (if txtOk input_file (derived_output_path output_dir input_file) then
            some (derived_output_path output_dir input_file) else none)) ∧
      (pyLower (splitext (basename input_file)).2 ∈ [".jpg", ".jpeg", ".png", ".bmp", ".gif"] →
        convert_to_pdf txtOk imgOk docOk input_file output_dir =
          (if imgOk input_file (derived_output_path output_dir input_file) then
            some (derived_output_path output_dir input_file) else none)) ∧
      (pyLower (splitext (basename input_file)).2 ∈ [".docx", ".doc"] →
        convert_to_pdf txtOk imgOk docOk input_file output_dir =
          (if docOk input_file (derived_output_path output_dir input_file) then
            some (derived_output_path output_dir input_file) else none)) ∧
      (pyLower (splitext (basename input_file)).2 ∉ supported_extensions →
        convert_to_pdf txtOk imgOk docOk input_file output_dir = none) ∧
      (∀ p, convert_to_pdf txtOk imgOk docOk input_file output_dir = some p →
        p = derived_output_path output_dir input_file) := by
  have hsplit : (pyLower (splitext (basename input_file)).2 ∈ supported_extensions) ↔
      (pyLower (splitext (basename input_file)).2 ∈ [".txt", ".md", ".csv"] ∨
        pyLower (splitext (basename input_file)).2 ∈ [".jpg", ".jpeg", ".png", ".bmp", ".gif"] ∨
        pyLower (splitext (basename input_file)).2 ∈ [".docx", ".doc"]) := by
    simp [supported_extensions, or_assoc]
  have b1 : pyLower (splitext (basename input_file)).2 ∈ [".txt", ".md", ".csv"] →
      convert_to_pdf txtOk imgOk docOk input_file output_dir =
        (if txtOk input_file (derived_output_path output_dir input_file) then
          some (derived_output_path output_dir input_file) else none) := by
    intro h
    simp [convert_to_pdf, derived_output_path, h]
  have b2 : pyLower (splitext (basename input_file)).2 ∈ [".jpg", ".jpeg", ".png", ".bmp", ".gif"] →
      convert_to_pdf txtOk imgOk docOk input_file output_dir =
        (if imgOk input_file (derived_output_path output_dir input_file) then
          some (derived_output_path output_dir input_file) else none) := by
    intro h
    have hnt : pyLower (splitext (basename input_file)).2 ∉ [".txt", ".md", ".csv"] := by
      intro hc
      simp only [List.mem_cons, List.not_mem_nil, or_false] at h hc
      rcases hc with hc | hc | hc <;> rw [hc] at h <;> exact absurd h (by decide)
    simp [convert_to_pdf, derived_output_path, h, hnt]
  have b3 : pyLower (splitext (basename input_file)).2 ∈ [".docx", ".doc"] →
      convert_to_pdf txtOk imgOk docOk input_file output_dir =
        (if docOk input_file (derived_output_path output_dir input_file) then
          some (derived_output_path output_dir input_file) else none) := by
    intro h
    have hnt : pyLower (splitext (basename input_file)).2 ∉ [".txt", ".md", ".csv"] := by
      intro hc
      simp only [List.mem_cons, List.not_mem_nil, or_false] at h hc
      rcases hc with hc | hc | hc <;> rw [hc] at h <;> exact absurd h (by decide)
    have hni : pyLower (splitext (basename input_file)).2 ∉
        [".jpg", ".jpeg", ".png", ".bmp", ".gif"] := by
      intro hc
      simp only [List.mem_cons, List.not_mem_nil, or_false] at h hc
      rcases hc with hc | hc | hc | hc | hc <;> rw [hc] at h <;> exact absurd h (by decide)
    simp [convert_to_pdf, derived_output_path, h, hnt, hni]
  have b4 : pyLower (splitext (basename input_file)).2 ∉ supported_extensions →
      convert_to_pdf txtOk imgOk docOk input_file output_dir = none := by
    intro h
    rw [hsplit] at h
    push_neg at h
    simp [convert_to_pdf, h.1, h.2.1, h.2.2]
  refine ⟨b1, b2, b3, b4, ?_⟩
  intro p hp
  by_cases h1 : pyLower (splitext (basename input_file)).2 ∈ [".txt", ".md", ".csv"]
  · rw [b1 h1] at hp
    by_cases hok : txtOk input_file (derived_output_path output_dir input_file)
    · rw [if_pos hok] at hp
      exact (Option.some.inj hp).symm
    · rw [if_neg hok] at hp
      cases hp
  · by_cases h2 : pyLower (splitext (basename input_file)).2 ∈
        [".jpg", ".jpeg", ".png", ".bmp", ".gif"]
    · rw [b2 h2] at hp
      by_cases hok : imgOk input_file (derived_output_path output_dir input_file)
      · rw [if_pos hok] at hp
        exact (Option.some.inj hp).symm
      · rw [if_neg hok] at hp
        cases hp
    · by_cases h3 : pyLower (splitext (basename input_file)).2 ∈ [".docx", ".doc"]
      · rw [b3 h3] at hp
        by_cases hok : docOk input_file (derived_output_path output_dir input_file)
        · rw [if_pos hok] at hp
          exact (Option.some.inj hp).symm
        · rw [if_neg hok] at hp
          cases hp
      · have hns : pyLower (splitext (basename input_file)).2 ∉ supported_extensions :=
          fun hs => (hsplit.mp hs).elim h1 (fun h => h.elim h2 h3)
        rw [b4 hns] at hp
        cases hp

/-- C6 witness: a text file dispatched with an always-succeeding text
converter yields the derived output path. -/
theorem C6_dispatcher_witness :
    convert_to_pdf (fun _ _ => true) (fun _ _ => false) (fun _ _ => false)
      "/work/notes.txt" "/work/pdf_output" = some "/work/pdf_output/notes.pdf" := by
  have h := (C6_dispatcher (fun _ _ => true) (fun _ _ => false) (fun _ _ => false)
    "/work/notes.txt" "/work/pdf_output").1 (by decide)
  rw [h]
  decide

/-- C7: whenever the image is readable, any PDF the converter writes has its
single page's width and height in points equal to the image's pixel width
and height, a successful return implies such a PDF was written, and the mode
conversion to RGB is performed exactly when the source mode is not RGB. -/
theorem C7_image_dimensions (env : ImgEnv) (img : ImageData)
    (hopen : env.openResult = Sum.inl img) :
    ((convert_image_to_pdf env).2.pdfPage = none ∨
        (convert_image_to_pdf env).2.pdfPage = some (img.width, img.height)) ∧
      ((convert_image_to_pdf env).1 = Sum.inr true →
        (convert_image_to_pdf env).2.pdfPage = some (img.width, img.height)) ∧
      (convert_image_to_pdf env).2.convertedToRGB = decide (img.mode ≠ "RGB") := by
  rcases hsave : env.saveError with _ | m
  · rcases hout : env.outputError with _ | m
    · rcases hrem : env.removeError with _ | m
      · simp [convert_image_to_pdf, image_body, catchException, hopen, hsave, hout, hrem]
      · simp [convert_image_to_pdf, image_body, catchException, hopen, hsave, hout, hrem]
    · simp [convert_image_to_pdf, image_body, catchException, hopen, hsave, hout]
  · simp [convert_image_to_pdf, image_body, catchException, hopen, hsave]

/-- C7 witness: an 800 by 600 RGBA PNG with no disk failures yields a PDF
page of exactly 800 by 600 points. -/
theorem C7_image_dimensions_witness :
    (convert_image_to_pdf
        { openResult := Sum.inl { width := 800, height := 600, mode := "RGBA" },
          saveError := none, outputError := none, removeError := none }).1 = Sum.inr true ∧
      (convert_image_to_pdf
          { openResult := Sum.inl { width := 800, height := 600, mode := "RGBA" },
            saveError := none, outputError := none, removeError := none }).2.pdfPage =
        some (800, 600) :=
  ⟨by decide,
   (C7_image_dimensions
      { openResult := Sum.inl { width := 800, height := 600, mode := "RGBA" },
        saveError := none, outputError := none, removeError := none }
      { width := 800, height := 600, mode := "RGBA" } rfl).2.1 (by decide)⟩

/-- C8: an eligible file is recorded as succeeded exactly when the dispatcher
returned a non-null (and non-empty, by Python truthiness) output path that
exists on disk at the time of the check; in every other case it is recorded
as failed, and it is always recorded in one of the two lists. -/
theorem C8_success_recording (env : BatchEnv) (current_dir output_dir name : String)
    (helig : eligible env current_dir name = true) :
    (mainLoop env current_dir output_dir [name] = ([name], []) ↔
        ∃ o, convert_to_pdf env.txtOk env.imgOk env.docOk
            (joinPath current_dir name) output_dir = some o ∧
          o ≠ "" ∧ env.existsF o = true) ∧
      (mainLoop env current_dir output_dir [name] = ([name], []) ∨
        mainLoop env current_dir output_dir [name] = ([], [name])) := by
  simp only [eligible, Bool.and_eq_true, Bool.not_eq_true', decide_eq_true_eq] at helig
  obtain ⟨⟨hdir, hscript⟩, hsup⟩ := helig
  have hskip : ¬(env.isDirF (joinPath current_dir name) = true ∨ name = script_basename) := by
    rw [hdir]
    simp only [Bool.false_eq_true, false_or]
    intro hc
    rw [hc] at hscript
    simp at hscript
  rcases hres : convert_to_pdf env.txtOk env.imgOk env.docOk
      (joinPath current_dir name) output_dir with _ | o
  · refine ⟨?_, Or.inr ?_⟩
    · constructor
      · intro h
        simp [mainLoop, hskip, hsup, hres] at h
      · rintro ⟨o, ho, _⟩
        exact Option.noConfusion ho
    · simp [mainLoop, hskip, hsup, hres]
  · by_cases hok : o ≠ "" ∧ env.existsF o = true
    · refine ⟨⟨fun _ => ⟨o, rfl, hok⟩, fun _ => ?_⟩, Or.inl ?_⟩
      · simp [mainLoop, hskip, hsup, hres, hok]
      · simp [mainLoop, hskip, hsup, hres, hok]
    · refine ⟨?_, Or.inr ?_⟩
      · constructor
        · intro h
          simp [mainLoop, hskip, hsup, hres, hok] at h
        · rintro ⟨o2, ho2, hne, hex⟩
          cases Option.some.inj ho2
          exact (hok ⟨hne, hex⟩).elim
      · simp [mainLoop, hskip, hsup, hres, hok]

/-- C8 witness: a text file whose conversion succeeds and whose output path
exists is recorded as succeeded. -/
theorem C8_success_recording_witness :
    mainLoop allOkEnv "/work" "/work/pdf_output" ["notes.txt"] = (["notes.txt"], []) :=
  ((C8_success_recording allOkEnv "/work" "/work/pdf_output" "notes.txt"
      (by decide)).1).mpr
    ⟨"/work/pdf_output/notes.pdf", by decide, by decide, rfl⟩

/-- C9: for each of the three converters and each of the modelled per-file
failure modes (I/O failure on read or write, unreadable image, temporary
file trouble, chdir failure, external process failure, and a raising rename
of the produced file when that rename is actually attempted), the converter
body's exception is caught at the converter's own boundary and turned into a
false return with a logged message; none of the calls ever lets the
exception propagate. -/
theorem C9_no_propagation (text : List Char) (envt : TxtEnv) (envi : ImgEnv)
    (input_file output_file : String) (envd : DocxEnv) (cwd0 : String) :
    ((∃ b, (convert_txt_to_pdf text envt).1 = Sum.inr b) ∧
        (envt.openError ≠ none ∨ envt.outputError ≠ none →
          (convert_txt_to_pdf text envt).1 = Sum.inr false ∧
            (convert_txt_to_pdf text envt).2.logs ≠ [])) ∧
      ((∃ b, (convert_image_to_pdf envi).1 = Sum.inr b) ∧
        ((∃ m, envi.openResult = Sum.inr m) ∨ envi.saveError ≠ none ∨
            envi.outputError ≠ none ∨ envi.removeError ≠ none →
          (convert_image_to_pdf envi).1 = Sum.inr false ∧
            (convert_image_to_pdf envi).2.logs ≠ [])) ∧
      ((∃ b, (convert_docx_to_pdf input_file output_file envd cwd0).1 = Sum.inr b) ∧
        (envd.chdirError ≠ none ∨ envd.proc ≠ .ok ∨
            (envd.expectedExists = true ∧
              joinPath (if dirname output_file = "" then "." else dirname output_file)
                  ((splitext (basename input_file)).1 ++ ".pdf") ≠ output_file ∧
              envd.renameError ≠ none) →
          (convert_docx_to_pdf input_file output_file envd cwd0).1 = Sum.inr false ∧
            (convert_docx_to_pdf input_file output_file envd cwd0).2.logs ≠ [])) := by
  refine ⟨⟨?_, ?_⟩, ⟨?_, ?_⟩, ⟨?_, ?_⟩⟩
  · rcases ho : envt.openError with _ | m
    · rcases hw : envt.outputError with _ | m
      · exact ⟨true, by simp [convert_txt_to_pdf, txt_body, ho, hw, catchException]⟩
      · exact ⟨false, by simp [convert_txt_to_pdf, txt_body, ho, hw, catchException]⟩
    · exact ⟨false, by simp [convert_txt_to_pdf, txt_body, ho, catchException]⟩
  · intro hfail
    rcases ho : envt.openError with _ | m
    · rcases hw : envt.outputError with _ | m
      · rw [ho, hw] at hfail
        rcases hfail with h | h <;> simp at h
      · constructor <;> simp [convert_txt_to_pdf, txt_body, ho, hw, catchException]
    · constructor <;> simp [convert_txt_to_pdf, txt_body, ho, catchException]
  · rcases hop : envi.openResult with img | m
    · rcases hs : envi.saveError with _ | m
      · rcases hw : envi.outputError with _ | m
        · rcases hr : envi.removeError with _ | m
          · exact ⟨true, by simp [convert_image_to_pdf, image_body, hop, hs, hw, hr, catchException]⟩
          · exact ⟨false, by simp [convert_image_to_pdf, image_body, hop, hs, hw, hr, catchException]⟩
        · exact ⟨false, by simp [convert_image_to_pdf, image_body, hop, hs, hw, catchException]⟩
      · exact ⟨false, by simp [convert_image_to_pdf, image_body, hop, hs, catchException]⟩
    · exact ⟨false, by simp [convert_image_to_pdf, image_body, hop, catchException]⟩
  · intro hfail
    rcases hop : envi.openResult with img | m
    · rcases hs : envi.saveError with _ | m
      · rcases hw : envi.outputError with _ | m
        · rcases hr : envi.removeError with _ | m
          · rw [hop, hs, hw, hr] at hfail
            rcases hfail with ⟨m, h⟩ | h | h | h <;> simp at h
          · constructor <;>
              simp [convert_image_to_pdf, image_body, hop, hs, hw, hr, catchException]
        · constructor <;> simp [convert_image_to_pdf, image_body, hop, hs, hw, catchException]
      · constructor <;> simp [convert_image_to_pdf, image_body, hop, hs, catchException]
    · constructor <;> simp [convert_image_to_pdf, image_body, hop, catchException]
  · rcases hc : envd.chdirError with _ | m
    · rcases hp : envd.proc with _ | s | m
      · by_cases hex : envd.expectedExists = true
        · by_cases heq :
            joinPath (if dirname output_file = "" then "." else dirname output_file)
              ((splitext (basename input_file)).1 ++ ".pdf") = output_file
          · exact ⟨true, by simp [convert_docx_to_pdf, docx_body, hc, hp, hex, heq]⟩
          · rcases hr : envd.renameError with _ | m
            · exact ⟨true, by simp [convert_docx_to_pdf, docx_body, hc, hp, hex, heq, hr]⟩
            · exact ⟨false, by simp [convert_docx_to_pdf, docx_body, hc, hp, hex, heq, hr]⟩
        · exact ⟨true, by simp [convert_docx_to_pdf, docx_body, hc, hp, hex]⟩
      · exact ⟨false, by simp [convert_docx_to_pdf, docx_body, hc, hp]⟩
      · exact ⟨false, by simp [convert_docx_to_pdf, docx_body, hc, hp]⟩
    · exact ⟨false, by simp [convert_docx_to_pdf, docx_body, hc]⟩
  · intro hfail
    rcases hc : envd.chdirError with _ | m
    · rcases hp : envd.proc with _ | s | m
      · rw [hc, hp] at hfail
        rcases hfail with h | h | ⟨hex, hne, hren⟩
        · simp at h
        · simp at h
        · rcases hr : envd.renameError with _ | m
          · rw [hr] at hren
            simp at hren
          · constructor <;>
              simp [convert_docx_to_pdf, docx_body, hc, hp, hex, hne, hr]
      · constructor <;> simp [convert_docx_to_pdf, docx_body, hc, hp]
      · constructor <;> simp [convert_docx_to_pdf, docx_body, hc, hp]
    · constructor <;> simp [convert_docx_to_pdf, docx_body, hc]

/-- C9 witness: the failure halves of all three converters at concrete
environments each return false without propagating; the document converter's
instance is the rename raising after a successful external run. -/
theorem C9_no_propagation_witness :
    (convert_txt_to_pdf "hi".data
        { openError := some "No such file", outputError := none }).1 = Sum.inr false ∧
      (convert_image_to_pdf
          { openResult := Sum.inr "cannot identify image file", saveError := none,
            outputError := none, removeError := none }).1 = Sum.inr false ∧
      (convert_docx_to_pdf "/docs/b.docx" "/out/a.pdf"
          { chdirError := none, proc := .ok,
            expectedExists := true, renameError := some "Permission denied" } "/home").1 =
        Sum.inr false :=
  have h := C9_no_propagation "hi".data
    { openError := some "No such file", outputError := none }
    { openResult := Sum.inr "cannot identify image file", saveError := none,
      outputError := none, removeError := none }
    "/docs/b.docx" "/out/a.pdf"
    { chdirError := none, proc := .ok,
      expectedExists := true, renameError := some "Permission denied" } "/home"
  ⟨(h.1.2 (Or.inl (by decide))).1,
   (h.2.1.2 (Or.inl ⟨"cannot identify image file", rfl⟩)).1,
   (h.2.2.2 (Or.inr (Or.inr ⟨rfl, by decide, by decide⟩))).1⟩

/-- C10: two inputs whose basenames without extension agree are sent to the
same derived output path whatever their extensions, and in a run where every
converter succeeds and every path exists, a directory holding a.txt and
a.jpg records both files as succeeded even though both conversions target
the single path /work/pdf_output/a.pdf. -/
theorem C10_output_collision (output_dir n1 n2 : String)
    (h : (splitext (basename n1)).1 = (splitext (basename n2)).1) :
    derived_output_path output_dir n1 = derived_output_path output_dir n2 ∧
      (derived_output_path "/work/pdf_output" "/work/a.txt" = "/work/pdf_output/a.pdf" ∧
        derived_output_path "/work/pdf_output" "/work/a.jpg" = "/work/pdf_output/a.pdf" ∧
        mainLoop allOkEnv "/work" "/work/pdf_output" ["a.txt", "a.jpg"] =
          (["a.txt", "a.jpg"], [])) := by
  refine ⟨?_, by decide, by decide, by decide⟩
  unfold derived_output_path
  rw [h]

/-- C10 witness: the path-collision half applied to the two concrete names
a.txt and a.jpg. -/
theorem C10_output_collision_witness :
    derived_output_path "/work/pdf_output" "/work/a.txt" =
      derived_output_path "/work/pdf_output" "/work/a.jpg" :=
  (C10_output_collision "/work/pdf_output" "/work/a.txt" "/work/a.jpg" (by decide)).1

end Pdfify
